import Mathlib

/-!
Verification development for the interactive database actions of weewx
(`src/bin/weectllib/db_actions.py`).

Each handler of the module is embedded as a pure Lean function from an
explicit environment (the answers the user gives at the prompts, the state
of the external databases, the records in the archive, the outcomes of the
external library calls) to the ordered trace of observable events it
performs: messages printed to stdout and stderr, log calls, confirmation
prompts, read-only database operations, and mutating database operations.
Exceptions become an explicit `Outcome`.

The heavy database work (`weewx.manager`, `weedb`) lives in parts of the
repository that are not under `src/`; those operations are modelled from
the specification and are marked `Modelled from the spec:` in their doc
comments.  Everything else is translated directly from the source of
`db_actions.py`.
-/

/-- Result of the `y_or_n` prompt helper: it only ever returns y or n. -/
inductive Ans
  | y
  | n
deriving DecidableEq, Repr

/-- The exceptions that flow through the handlers. -/
inductive Exc
  | operationalError
  | importError
  | osError
  | typeError
  | databaseExists
  | noColumn (c : String)
  | unknownBinding
deriving DecidableEq, Repr

/-- How a handler run ends: normally, with a propagated exception, or with
an explicit `sys.exit`. -/
inductive Outcome
  | ok
  | raised (e : Exc)
  | exited
deriving DecidableEq, Repr

set_option maxHeartbeats 1600000 in
/-- The user-visible messages of `db_actions.py`.  Each constructor stands
for one message of the source; `Msg.text` gives the corresponding text
(with names interpolated, quotes around names omitted). -/
inductive Msg
  | dryRunNotice
  | dryRunDone
  | configUsed
  | alreadyExists (db : String)
  | createdDb (db : String)
  | dropDailyWarning (db : String)
  | droppingDaily (db : String)
  | opErrorMsg
  | dropDailyFailed (db : String)
  | dailyDropped (db : String)
  | noDailyFound (db : String)
  | nothingDone
  | rebuildPlan
  | rebuilding (db : String)
  | rebuildCompleteLog (db : String)
  | processedRecords (nrecs ndays : Nat)
  | rebuildComplete (db : String)
  | upToDate (db : String)
  | colAdded (c t : String)
  | colRenamed (a b : String)
  | mayTakeAWhile
  | noColumnErr (c : String)
  | colsDropped
  | oldNotInitialized
  | copyingDb (src dst : String)
  | unitsSame
  | unitsConverted
  | dbCopied (src dst : String)
  | destBindingMissing
  | unknownDestBinding
  | errAccessDestGeneric
  | schemaMaybeIncorrect
  | dbMaybeIncorrect
  | nothingDoneAbortingCaps
  | nothingDoneAborting
  | noRecordsFound (db : String)
  | transferring
  | completed
  | recordsTransferred (n : Nat) (src dst : String)
  | errAccessDest (db : String)
  | maybeNotExist
  | preparingCalc
  | dryRunCalc
  | calcPlan
  | calculating
  | calcErr
  | checkStdWX
  | calcDone
  | checkingVersion
  | versionIs (v : Option String)
  | fixNotRequired
  | recommendUpdate
  | reweightPlan
  | recalcMsg (db : String)
  | finishedReweight
deriving Repr

/-- The text of each message, as printed by the source (quotes around
interpolated names and numeric timing payloads omitted). -/
def Msg.text : Msg → String
  | .dryRunNotice => "This is a dry run. Nothing will actually be done."
  | .dryRunDone => "This was a dry run. Nothing was actually done."
  | .configUsed => "The configuration file will be used."
  | .alreadyExists db => s!"Database {db} already exists. Nothing done."
  | .createdDb db => s!"Created database {db}."
  | .dropDailyWarning db =>
      s!"Proceeding will delete all your daily summaries from database {db}"
  | .droppingDaily db => s!"Dropping daily summary tables from {db} ... "
  | .opErrorMsg => "Error"
  | .dropDailyFailed db => s!"Drop daily summary tables failed for database {db}"
  | .dailyDropped db => s!"Daily summary tables dropped from database {db}"
  | .noDailyFound db => s!"No daily summaries found in database {db}. Nothing done."
  | .nothingDone => "Nothing done."
  | .rebuildPlan => "Daily summaries will be rebuilt."
  | .rebuilding db => s!"Rebuilding daily summaries in database {db} ..."
  | .rebuildCompleteLog db => s!"Rebuild of daily summaries in database {db} complete."
  | .processedRecords nrecs ndays =>
      s!"Processed {nrecs} records to rebuild {ndays} daily summaries."
  | .rebuildComplete db => s!"Rebuild of daily summaries in database {db} complete."
  | .upToDate db => s!"Daily summaries up to date in {db}."
  | .colAdded c t => s!"New column {c} of type {t} added to database."
  | .colRenamed a b => s!"Column {a} renamed to {b}."
  | .mayTakeAWhile => "This may take a while..."
  | .noColumnErr c => s!"No such column {c}"
  | .colsDropped => "Column(s) dropped from the database."
  | .oldNotInitialized => "Old database has not been initialized. Nothing to be done."
  | .copyingDb src dst => s!"Copying database {src} to {dst}"
  | .unitsSame => "The new database will use the same unit system as the old."
  | .unitsConverted => "Units will be converted."
  | .dbCopied src dst => s!"Database {src} copied to {dst}."
  | .destBindingMissing => "Destination binding not specified. Nothing Done. Aborting."
  | .unknownDestBinding => "Unknown destination binding. Please confirm the destination binding."
  | .errAccessDestGeneric => "Error accessing destination database."
  | .schemaMaybeIncorrect => "Maybe the destination schema is incorrectly specified?"
  | .dbMaybeIncorrect => "Maybe the destination database is incorrectly defined?"
  | .nothingDoneAbortingCaps => "Nothing Done. Aborting."
  | .nothingDoneAborting => "Nothing done. Aborting."
  | .noRecordsFound db => s!"No records found in source database {db}."
  | .transferring => "Transferring, this may take a while.... "
  | .completed => "Completed."
  | .recordsTransferred n src dst =>
      s!"{n} records transferred from source database {src} to destination database {dst}."
  | .errAccessDest db => s!"Error accessing destination database {db}."
  | .maybeNotExist => "Maybe it does not exist (MySQL) or is incorrectly defined?"
  | .preparingCalc => "Preparing to calculate missing derived observations..."
  | .dryRunCalc =>
      "This is a dry run, missing derived observations will be calculated but not saved"
  | .calcPlan => "Missing derived observations will be calculated."
  | .calculating => "Calculating missing derived observations..."
  | .calcErr => "Error"
  | .checkStdWX =>
      "Perhaps StdWXCalculate is using a different binding. Check configuration file"
  | .calcDone => "Missing derived observations calculated"
  | .checkingVersion => "Checking daily summary tables version..."
  | .versionIs v =>
      match v with
      | some s => s!"Daily summary tables are at version {s}."
      | none => "Daily summary tables are at version None."
  | .fixNotRequired => "Interval Weighting Fix is not required."
  | .recommendUpdate => "Recommend running --update to recalculate interval weightings."
  | .reweightPlan => "The weighted sums in the daily summaries will be recalculated."
  | .recalcMsg db => s!"Recalculating the weighted summaries in database {db} ..."
  | .finishedReweight => "Finished reweighting."

/-- Observable events of a handler run, in order: stdout prints, stderr
prints, log calls, confirmation prompts, global logging-suppression level
changes, and the database operations delegated to the manager library.
Database operations carry the name of the database they act on. -/
inductive Ev
  | print (m : Msg)
  | printErr (m : Msg)
  | logInfo (m : Msg)
  | logErr (m : Msg)
  | prompt (s : String)
  | logDisable (lvl : Nat)
  | openDb (db : String)
  | readDb (db : String)
  | createDb (db : String)
  | dropDb (db : String)
  | dropDailyTables (db : String)
  | backfillDaily (db : String)
  | addColumnOp (db c t : String)
  | renameColumnOp (db a b : String)
  | dropColumnsOp (db : String) (cols : List String)
  | addRecords (db : String) (n : Nat)
  | recalcWeights (db : String)
  | reconfigCopy (src dst : String)
  | calcMissingRun (db : String)
  | recordRead (db : String)
deriving Repr

/-- Does this event mutate stored state?  Prints, prompts, log calls and
read-only database accesses do not; database creation, dropping, schema
changes, record insertion and summary recomputation do. -/
def Ev.isWrite : Ev → Bool
  | .createDb _ => true
  | .dropDb _ => true
  | .dropDailyTables _ => true
  | .backfillDaily _ => true
  | .addColumnOp _ _ _ => true
  | .renameColumnOp _ _ _ => true
  | .dropColumnsOp _ _ => true
  | .addRecords _ _ => true
  | .recalcWeights _ => true
  | .reconfigCopy _ _ => true
  | .calcMissingRun _ => true
  | _ => false

/-- Is this event a confirmation prompt shown to the user? -/
def Ev.isPrompt : Ev → Bool
  | .prompt _ => true
  | _ => false

/-- Does this event touch (open, read, or mutate) the named database? -/
def Ev.touches (db : String) : Ev → Bool
  | .openDb d => d == db
  | .readDb d => d == db
  | .createDb d => d == db
  | .dropDb d => d == db
  | .dropDailyTables d => d == db
  | .backfillDaily d => d == db
  | .addColumnOp d _ _ => d == db
  | .renameColumnOp d _ _ => d == db
  | .dropColumnsOp d _ => d == db
  | .addRecords d _ => d == db
  | .recalcWeights d => d == db
  | .reconfigCopy s d => s == db || d == db
  | .calcMissingRun d => d == db
  | .recordRead d => d == db
  | _ => false

/-- A trace is write-free when every event in it is read-only. -/
def writeFree (tr : List Ev) : Bool :=
  tr.all fun e => !e.isWrite

/-- A trace is prompt-free when the user is never asked anything. -/
def promptFree (tr : List Ev) : Bool :=
  tr.all fun e => !e.isPrompt

/-- A trace never touches the named database. -/
def touchFree (db : String) (tr : List Ev) : Bool :=
  tr.all fun e => !(e.touches db)

/-- Whether the trace contains any confirmation prompt. -/
def hasPrompt (tr : List Ev) : Bool :=
  tr.any fun e => e.isPrompt

/-- Whether the trace prints the message `Nothing done.` to stdout. -/
def hasNothingDone : List Ev → Bool
  | [] => false
  | .print .nothingDone :: _ => true
  | _ :: tr => hasNothingDone tr

/-- Python logging constant `logging.INFO`. -/
def INFO_LEVEL : Nat := 20

/-- Python logging constant `logging.NOTSET`. -/
def NOTSET_LEVEL : Nat := 0

/-- The global logging-suppression level after the trace has run:
the argument of the last `logging.disable` call, `NOTSET` when there was
none (the process default). -/
def finalDisableLevel (tr : List Ev) : Nat :=
  tr.foldl (fun acc e => match e with | .logDisable n => n | _ => acc) NOTSET_LEVEL

/-! ## Spec-modelled external library operations

The manager library (`weewx.manager`, `weedb`, `weectllib.parse_dates`) is
part of this repository but not under `src/`; the definitions below model
the pieces the handlers delegate to, from the words of the specification.
-/

/-- Modelled from the spec: `weectllib.parse_dates` is not under `src/`.
Per the spec the handlers receive optional inclusive day-range bounds, and
a single date argument means that one day (the source compares
`from_d == to_d` for the one-day message). -/
def parse_dates (date from_date to_date : Option Nat) : Option Nat × Option Nat :=
  match date with
  | some d => (some d, some d)
  | none => (from_date, to_date)

/-- An archive record, as far as the daily-summary engine needs it:
a timestamp in seconds since the epoch, an observation value, and the
sampling interval used as the aggregation weight. -/
structure Rec where
  ts : Nat
  value : Int
  interval : Nat
deriving DecidableEq, Repr

/-- The calendar day a timestamp falls in (days since the epoch). -/
def dayOf (ts : Nat) : Nat := ts / 86400

/-- One daily-summary aggregate row: count, sum, weighted sum
(value times interval) and total weight. -/
structure DaySummary where
  count : Nat
  sum : Int
  wsum : Int
  sumtime : Nat
deriving DecidableEq, Repr

/-- The empty aggregate. -/
def emptySummary : DaySummary := ⟨0, 0, 0, 0⟩

/-- Fold one record into a daily aggregate. -/
def addRec (s : DaySummary) (r : Rec) : DaySummary :=
  ⟨s.count + 1, s.sum + r.value, s.wsum + r.value * (r.interval : Int),
   s.sumtime + r.interval⟩

/-- Association list from day to its aggregate row. -/
abbrev SummaryMap := List (Nat × DaySummary)

/-- Fold a record into the aggregate of day `d`, creating the row when the
day is new. -/
def updateDay (m : SummaryMap) (d : Nat) (r : Rec) : SummaryMap :=
  match m with
  | [] => [(d, addRec emptySummary r)]
  | (d1, s) :: rest =>
      if d1 = d then (d1, addRec s r) :: rest else (d1, s) :: updateDay rest d r

/-- Look up the aggregate row of day `d`. -/
def lookupDay (m : SummaryMap) (d : Nat) : Option DaySummary :=
  match m with
  | [] => none
  | (d1, s) :: rest => if d1 = d then some s else lookupDay rest d

/-- Scan the records in order, folding each into the aggregate of its day,
starting from summary map `m`. -/
def foldRecs (m : SummaryMap) (recs : List Rec) : SummaryMap :=
  recs.foldl (fun acc r => updateDay acc (dayOf r.ts) r) m

/-- Modelled from the spec: `Manager.backfill_day_summary` (the
SummaryBuilder of the spec) is not under `src/`.  Per the spec it scans the
records in ascending timestamp order, grouping by calendar day and folding
each record into the aggregate for its day, fully replacing any prior
aggregates. -/
def backfill (recs : List Rec) : SummaryMap := foldRecs [] recs

/-- Is the day of this record inside the optional inclusive day bounds? -/
def recInRange (from_d to_d : Option Nat) (r : Rec) : Bool :=
  (from_d.all fun a => a ≤ dayOf r.ts) && (to_d.all fun b => dayOf r.ts ≤ b)

/-- The records of one calendar day. -/
def dayRecords (recs : List Rec) (d : Nat) : List Rec :=
  recs.filter fun r => dayOf r.ts == d

/-- Sum of the values of a list of records. -/
def sumVals (recs : List Rec) : Int :=
  recs.foldr (fun r acc => r.value + acc) 0

/-- Sum of value times interval over a list of records. -/
def sumWeighted (recs : List Rec) : Int :=
  recs.foldr (fun r acc => r.value * (r.interval : Int) + acc) 0

/-- Sum of the intervals of a list of records. -/
def sumIntervals (recs : List Rec) : Nat :=
  recs.foldr (fun r acc => r.interval + acc) 0

/-- Modelled from the spec: `Manager.drop_columns` is not under `src/`.
Per the spec it accepts the requested names, fails with `NoColumnError`
naming the first missing name and leaves the schema unchanged when any
requested name is missing, and otherwise removes exactly the requested
columns. -/
def manager_drop_columns (schema : List String) (cols : List String) :
    Except String (List String) :=
  match cols.find? (fun c => !(schema.contains c)) with
  | some c => .error c
  | none => .ok (schema.filter fun s => !(cols.contains s))

/-- Python string comparison: strict lexicographic order on code points. -/
def pyCharsLt : List Char → List Char → Bool
  | _, [] => false
  | [], _ :: _ => true
  | a :: as, b :: bs => a.toNat < b.toNat || (a == b && pyCharsLt as bs)

/-- Python string comparison `a >= b` (the total order, so not less-than). -/
def pyStrGe (a b : String) : Bool := !(pyCharsLt a.data b.data)

/-- Split a character list at the dots. -/
def splitDots : List Char → List (List Char)
  | [] => [[]]
  | c :: cs =>
      let r := splitDots cs
      if c = '.' then [] :: r
      else
        match r with
        | [] => [[c]]
        | g :: gs => (c :: g) :: gs

/-- The decimal value of a digit run. -/
def digitsVal (cs : List Char) : Nat :=
  cs.foldl (fun acc c => acc * 10 + (c.toNat - 48)) 0

/-- The dot-separated numeric components of a version string, each read as
a decimal number. -/
def versionParts (s : String) : List Nat :=
  (splitDots s.data).map digitsVal

/-- Strict lexicographic order on numeric component lists. -/
def partsLt : List Nat → List Nat → Bool
  | _, [] => false
  | [], _ :: _ => true
  | a :: as, b :: bs => a < b || (a == b && partsLt as bs)

/-- Version comparison `a >= b`, comparing dot-separated numeric
components, the reading of at least version 2.0 the claim uses. -/
def versionGe (a b : String) : Bool := !(partsLt (versionParts a) (versionParts b))

/-! ## The handlers of db_actions.py -/

/-- The common preamble `_prepare`: print the dry-run notice when asked,
read the configuration, print which configuration file is used, and look
up the database name of the binding.  Reading the configuration touches no
database. -/
def prepare (dry_run : Bool) : List Ev :=
  (if dry_run then [Ev.print .dryRunNotice] else []) ++ [Ev.print .configUsed]

/-- Environment of `create_database`: the database of the binding and
whether it already exists (the probing open succeeds). -/
structure CreateEnv where
  dbName : String
  dbExists : Bool
deriving DecidableEq, Repr

/-- `create_database`: probe with a plain open; when that raises
`OperationalError` and this is not a dry run, open again with
initialization, which creates the database. -/
def create_database (env : CreateEnv) (dry_run : Bool) : List Ev × Outcome :=
  let pre := (if dry_run then [Ev.print .dryRunNotice] else []) ++ [Ev.print .configUsed]
  if env.dbExists then
    (pre ++ [Ev.openDb env.dbName, Ev.print (.alreadyExists env.dbName)], .ok)
  else if dry_run then
    (pre ++ [Ev.openDb env.dbName], .ok)
  else
    (pre ++ [Ev.openDb env.dbName, Ev.createDb env.dbName,
             Ev.print (.createdDb env.dbName)], .ok)

/-- Environment of `drop_daily`: whether opening the manager raises
`OperationalError` (no daily summaries), whether the drop itself raises
`OperationalError`, and the answer to the prompt. -/
structure DropDailyEnv where
  dbName : String
  openFails : Bool
  dropFails : Bool
  ans : Ans
deriving DecidableEq, Repr

/-- `drop_daily`: warn, confirm, and delegate to `Manager.drop_daily`
unless this is a dry run. -/
def drop_daily (env : DropDailyEnv) (dry_run : Bool) : List Ev × Outcome :=
  let pre := prepare dry_run
  let tail := if dry_run then [Ev.print .dryRunDone] else []
  let body :=
    [Ev.print (.dropDailyWarning env.dbName),
     Ev.prompt "Are you sure you want to proceed (y/n)? "] ++
    (if env.ans = .y then
      [Ev.print (.droppingDaily env.dbName)] ++
      (if env.openFails then
        [Ev.print (.noDailyFound env.dbName)]
      else
        [Ev.openDb env.dbName] ++
        (if dry_run then
          [Ev.print (.dailyDropped env.dbName)]
        else if env.dropFails then
          [Ev.printErr .opErrorMsg, Ev.print (.dropDailyFailed env.dbName)]
        else
          [Ev.dropDailyTables env.dbName, Ev.print (.dailyDropped env.dbName)]))
    else
      [Ev.print .nothingDone])
  (pre ++ body ++ tail, .ok)

/-- Environment of `rebuild_daily`: the optional date arguments, the
archive records, and the answer to the prompt. -/
structure RebuildEnv where
  dbName : String
  date : Option Nat
  from_date : Option Nat
  to_date : Option Nat
  recs : List Rec
  ans : Ans
deriving DecidableEq, Repr

/-- `rebuild_daily`: announce the plan, confirm, return before touching
the database on a dry run, and otherwise open the database and backfill
the daily summaries.  The second component is the daily-summary table the
backfill produced (`none` when no backfill ran). -/
def rebuild_daily (env : RebuildEnv) (dry_run : Bool) : List Ev × Option SummaryMap :=
  let pre := prepare dry_run
  let bounds := parse_dates env.date env.from_date env.to_date
  let head := pre ++
    [Ev.logInfo .rebuildPlan, Ev.print .rebuildPlan,
     Ev.prompt "Rebuild the daily summaries in the database? (y/n) "]
  if env.ans = .n then
    (head ++ [Ev.logInfo .nothingDone, Ev.print .nothingDone], none)
  else
    let h2 := head ++ [Ev.logInfo (.rebuilding env.dbName), Ev.print (.rebuilding env.dbName)]
    if dry_run then
      (h2 ++ [Ev.print .dryRunDone], none)
    else
      let filtered := env.recs.filter (recInRange bounds.1 bounds.2)
      let summaries := backfill filtered
      let nrecs := filtered.length
      let trace := h2 ++
        [Ev.openDb env.dbName, Ev.backfillDaily env.dbName,
         Ev.logInfo (.rebuildCompleteLog env.dbName)] ++
        (if nrecs ≠ 0 then
          [Ev.print (.processedRecords nrecs summaries.length),
           Ev.print (.rebuildComplete env.dbName)]
        else
          [Ev.print (.upToDate env.dbName)])
      (trace, some summaries)

/-- Environment of `add_column`: the column name, the optional column
type (`REAL` when not given), and the answer to the prompt. -/
structure AddColEnv where
  dbName : String
  columnName : String
  columnType : Option String
  ans : Ans
deriving DecidableEq, Repr

/-- `add_column`: confirm, open the manager, and delegate to
`Manager.add_column` unless this is a dry run. -/
def add_column (env : AddColEnv) (dry_run : Bool) : List Ev :=
  let pre := prepare dry_run
  let t := env.columnType.getD "REAL"
  pre ++ [Ev.prompt "Add new column? (y/n) "] ++
  (if env.ans = .y then
    [Ev.openDb env.dbName] ++
    (if dry_run then [] else [Ev.addColumnOp env.dbName env.columnName t]) ++
    [Ev.print (.colAdded env.columnName t)]
  else
    [Ev.print .nothingDone]) ++
  (if dry_run then [Ev.print .dryRunDone] else [])

/-- Environment of `rename_column`. -/
structure RenameEnv where
  dbName : String
  columnName : String
  newName : String
  ans : Ans
deriving DecidableEq, Repr

/-- `rename_column`: confirm, open the manager, and delegate to
`Manager.rename_column` unless this is a dry run. -/
def rename_column (env : RenameEnv) (dry_run : Bool) : List Ev :=
  let pre := prepare dry_run
  pre ++ [Ev.prompt "Rename column? (y/n) "] ++
  (if env.ans = .y then
    [Ev.openDb env.dbName] ++
    (if dry_run then [] else [Ev.renameColumnOp env.dbName env.columnName env.newName]) ++
    [Ev.print (.colRenamed env.columnName env.newName)]
  else
    [Ev.print .nothingDone]) ++
  (if dry_run then [Ev.print .dryRunDone] else [])

/-- Environment of `drop_columns`: the requested names, the current schema
of the archive table, and the answer to the prompt. -/
structure DropColsEnv where
  dbName : String
  columnNames : List String
  schema : List String
  ans : Ans
deriving DecidableEq, Repr

/-- `drop_columns`: confirm, and unless this is a dry run open the manager
and delegate to `Manager.drop_columns`, catching `NoColumnError` to report
the missing column and that nothing was done.  The second component is the
schema after the run. -/
def drop_columns (env : DropColsEnv) (dry_run : Bool) : List Ev × List String :=
  let pre := prepare dry_run
  let tail := if dry_run then [Ev.print .dryRunDone] else []
  let head := pre ++ [Ev.prompt "Drop column(s) from the database? (y/n) "]
  if env.ans = .y then
    let h2 := head ++ [Ev.print .mayTakeAWhile]
    if dry_run then
      (h2 ++ tail, env.schema)
    else
      match manager_drop_columns env.schema env.columnNames with
      | .error c =>
          (h2 ++ [Ev.openDb env.dbName, Ev.printErr (.noColumnErr c),
                  Ev.print .nothingDone] ++ tail, env.schema)
      | .ok s2 =>
          (h2 ++ [Ev.openDb env.dbName, Ev.dropColumnsOp env.dbName env.columnNames,
                  Ev.print .colsDropped] ++ tail, s2)
  else
    (head ++ [Ev.print .nothingDone] ++ tail, env.schema)

/-- Environment of `reconfigure_database`: whether the target database
(source name plus the suffix `_new`) already exists, the answers to the
two possible prompts, the unit system recorded in the old archive, and
the target unit system of the configuration. -/
structure ReconfigEnv where
  srcName : String
  targetExists : Bool
  ansDelete : Ans
  ansProceed : Ans
  oldUnitSystem : Option Nat
  targetUnit : Option Nat
deriving DecidableEq, Repr

/-- `reconfigure_database`: unless this is a dry run, create the target
database first; when that raises `DatabaseExists`, ask whether to delete
it and either drop it or stop.  Then read the unit system of the old
archive, announce the copy, confirm, and delegate to
`weewx.manager.reconfig`.  Modelled from the spec: `reconfig` is not under
`src/`; it receives the dry-run flag and per the spec a dry run skips the
final write, so the copy event is emitted only on a real run. -/
def reconfigure_database (env : ReconfigEnv) (dry_run : Bool) : List Ev × Outcome :=
  let pre := prepare dry_run
  let newName := env.srcName ++ "_new"
  let tail := if dry_run then [Ev.print .dryRunDone] else []
  let step1 : List Ev × Bool :=
    if dry_run then ([], false)
    else if env.targetExists then
      ([Ev.prompt "New database already exists. Delete it first? (y/n) "] ++
       (if env.ansDelete = .y then [Ev.dropDb newName] else [Ev.print .nothingDone]),
       env.ansDelete = .n)
    else ([Ev.createDb newName], false)
  if step1.2 then
    (pre ++ step1.1, .ok)
  else
    let head := pre ++ step1.1 ++ [Ev.openDb env.srcName]
    match env.oldUnitSystem with
    | none => (head ++ [Ev.print .oldNotInitialized], .ok)
    | some old =>
      let unitsMsg : Msg :=
        match env.targetUnit with
        | none => .unitsSame
        | some t => if old = t then .unitsSame else .unitsConverted
      let h2 := head ++
        [Ev.print (.copyingDb env.srcName newName), Ev.print unitsMsg,
         Ev.prompt "Are you sure you wish to proceed? (y/n) "]
      if env.ansProceed = .y then
        (h2 ++ (if dry_run then [] else [Ev.reconfigCopy env.srcName newName]) ++
         [Ev.print (.dbCopied env.srcName newName)] ++ tail, .ok)
      else
        (h2 ++ [Ev.print .nothingDone] ++ tail, .ok)

/-- How resolving the destination binding of `transfer_database` went. -/
inductive BindingRes
  | ok
  | unknownBinding
  | unknownDatabase
  | schemaIssue
  | unknownDbType
deriving DecidableEq, Repr

/-- Environment of `transfer_database`: the destination binding argument,
how resolving it goes, source and destination database names, the number
of source records, whether the destination database already exists, the
exception (when any) raised while opening the destination, the exception
(when any) raised by the record transfer, and the answer to the prompt. -/
structure TransferEnv where
  destBinding : Option String
  bindingRes : BindingRes
  srcName : String
  destName : String
  numRecs : Nat
  destExists : Bool
  openExc : Option Exc
  addExc : Option Exc
  ans : Ans
deriving DecidableEq, Repr

/-- The two exception handlers around the destination block of
`transfer_database`: `ImportError` and `(OSError, OperationalError)` print
their abort messages and re-raise; other exceptions propagate silently. -/
def catchDest (e : Exc) (dest : String) : List Ev :=
  match e with
  | .importError =>
      [Ev.printErr (.errAccessDest dest), Ev.printErr .nothingDoneAborting]
  | .osError =>
      [Ev.printErr (.errAccessDest dest), Ev.printErr .maybeNotExist,
       Ev.printErr .nothingDoneAborting]
  | .operationalError =>
      [Ev.printErr (.errAccessDest dest), Ev.printErr .maybeNotExist,
       Ev.printErr .nothingDoneAborting]
  | _ => []

/-- `transfer_database`: check the arguments and the destination binding,
count the source records, stop when there are none, confirm, then open the
destination with `Manager.open_with_create` and transfer the records in
one batch unless this is a dry run, suppressing logging at or below INFO
around the transfer.  Modelled from the spec: `Manager.open_with_create`
is not under `src/`; per its name and the manager contract it opens the
destination database, creating and initializing it with the given schema
when it does not exist, which the model records as a create event. -/
def transfer_database (env : TransferEnv) (dry_run : Bool) : List Ev × Outcome :=
  match env.destBinding with
  | none => ([Ev.printErr .destBindingMissing], .ok)
  | some _ =>
    let pre := (if dry_run then [Ev.print .dryRunNotice] else []) ++ [Ev.print .configUsed]
    match env.bindingRes with
    | .unknownBinding =>
        (pre ++ [Ev.print .unknownDestBinding, Ev.printErr .nothingDoneAbortingCaps], .ok)
    | .unknownDatabase =>
        (pre ++ [Ev.printErr .errAccessDestGeneric,
                 Ev.printErr .nothingDoneAbortingCaps], .ok)
    | .schemaIssue =>
        (pre ++ [Ev.printErr .errAccessDestGeneric, Ev.printErr .schemaMaybeIncorrect,
                 Ev.printErr .nothingDoneAbortingCaps], .ok)
    | .unknownDbType =>
        (pre ++ [Ev.printErr .errAccessDestGeneric, Ev.printErr .dbMaybeIncorrect,
                 Ev.printErr .nothingDoneAbortingCaps], .ok)
    | .ok =>
      let h1 := pre ++ [Ev.openDb env.srcName, Ev.readDb env.srcName]
      if env.numRecs = 0 then
        (h1 ++ [Ev.print (.noRecordsFound env.srcName),
                Ev.print .nothingDoneAborting], .ok)
      else
        let h2 := h1 ++
          [Ev.prompt "Transfer records from source database to destination database? (y/n) "]
        if env.ans = .n then
          (h2 ++ [Ev.print .nothingDone], .ok)
        else
          match env.openExc with
          | some e => (h2 ++ catchDest e env.destName, .raised e)
          | none =>
            let h3 := h2 ++ [Ev.openDb env.destName] ++
              (if env.destExists then [] else [Ev.createDb env.destName]) ++
              [Ev.print .transferring]
            if dry_run then
              (h3 ++ [Ev.print .completed,
                      Ev.print (.recordsTransferred 0 env.srcName env.destName),
                      Ev.print .dryRunDone], .ok)
            else
              let h4 := h3 ++ [Ev.logDisable INFO_LEVEL]
              match env.addExc with
              | some e => (h4 ++ catchDest e env.destName, .raised e)
              | none =>
                (h4 ++ [Ev.addRecords env.destName env.numRecs,
                        Ev.logDisable NOTSET_LEVEL, Ev.print .completed,
                        Ev.print (.recordsTransferred env.numRecs env.srcName env.destName)],
                 .ok)

/-- Environment of `calc_missing`: the optional date arguments, the first
and last good timestamps of the archive (`none` on an empty archive),
whether the calculation raises `UnknownBinding`, and the answer to the
prompt. -/
structure CalcEnv where
  dbName : String
  date : Option Nat
  from_date : Option Nat
  to_date : Option Nat
  firstTs : Option Int
  lastTs : Option Int
  ans : Ans
  runUnknownBinding : Bool
deriving DecidableEq, Repr

/-- `calc_missing`: read the first and last good timestamps, compute the
start timestamp as `first_ts - 1` when no start date was given (a
`TypeError` when the archive is empty and `first_ts` is `None`), announce
the plan, confirm, and run the `CalcMissing` engine, which receives the
dry-run flag.  `UnknownBinding` from the engine becomes a `sys.exit`. -/
def calc_missing (env : CalcEnv) (dry_run : Bool) : List Ev × Outcome :=
  let pre := prepare dry_run
  let h1 := pre ++ [Ev.logInfo .preparingCalc, Ev.openDb env.dbName, Ev.readDb env.dbName]
  let start_dt := (parse_dates env.date env.from_date env.to_date).1
  match start_dt, env.firstTs with
  | none, none => (h1, .raised .typeError)
  | _, _ =>
    let h2 := h1 ++
      (if dry_run then [Ev.logInfo .dryRunCalc, Ev.print .dryRunCalc] else []) ++
      [Ev.logInfo .calcPlan, Ev.print .calcPlan, Ev.prompt "Proceed? (y/n) "]
    if env.ans = .n then
      (h2 ++ [Ev.logInfo .nothingDone, Ev.print .nothingDone], .ok)
    else
      let h3 := h2 ++ [Ev.logInfo .calculating, Ev.print .calculating,
                       Ev.calcMissingRun env.dbName]
      if env.runUnknownBinding then
        (h3 ++ [Ev.print .calcErr, Ev.logErr .calcErr, Ev.print .checkStdWX], .exited)
      else
        (h3 ++ [Ev.logInfo .calcDone, Ev.print .calcDone], .ok)

/-- Environment of `check`: the stored version metadata of the daily
summary tables (`None` when absent). -/
structure CheckEnv where
  dbName : String
  version : Option String
deriving DecidableEq, Repr

/-- `check`: read the `Version` metadata of the daily summary tables and
report whether the interval weighting fix is required.  The source
compares the stored value with the Python string comparison
`daily_summary_version >= "2.0"` after a not-None test. -/
def check (env : CheckEnv) : List Ev :=
  prepare false ++
  [Ev.print .checkingVersion, Ev.openDb env.dbName, Ev.readDb env.dbName,
   Ev.logInfo (.versionIs env.version), Ev.print (.versionIs env.version)] ++
  (if (match env.version with | some v => pyStrGe v "2.0" | none => false) then
    [Ev.logInfo .fixNotRequired, Ev.print .fixNotRequired]
  else
    [Ev.print .recommendUpdate])

/-- Environment of `reweight_daily`. -/
structure ReweightEnv where
  dbName : String
  date : Option Nat
  from_date : Option Nat
  to_date : Option Nat
  ans : Ans
deriving DecidableEq, Repr

/-- `reweight_daily`: announce the plan, confirm, open the database and
delegate to `Manager.recalculate_weights` unless this is a dry run. -/
def reweight_daily (env : ReweightEnv) (dry_run : Bool) : List Ev :=
  let pre := prepare dry_run
  let head := pre ++
    [Ev.logInfo .reweightPlan, Ev.print .reweightPlan, Ev.prompt "Proceed (y/n)? "]
  if env.ans = .n then
    head ++ [Ev.logInfo .nothingDone, Ev.print .nothingDone]
  else
    head ++
    [Ev.openDb env.dbName, Ev.logInfo (.recalcMsg env.dbName),
     Ev.print (.recalcMsg env.dbName)] ++
    (if dry_run then [] else [Ev.recalcWeights env.dbName]) ++
    [Ev.logInfo .finishedReweight, Ev.print .finishedReweight] ++
    (if dry_run then [Ev.print .dryRunDone] else [])

/-! ## The backfill engine: folding records equals aggregating per day -/

/-- Fold a list of records into an optional aggregate row, creating the
row at the first record. -/
def extendO : Option DaySummary → List Rec → Option DaySummary
  | o, [] => o
  | o, r :: rs => extendO (some (addRec (o.getD emptySummary) r)) rs

theorem lookupDay_updateDay (m : SummaryMap) (d e : Nat) (r : Rec) :
    lookupDay (updateDay m d r) e =
      if e = d then some (addRec ((lookupDay m d).getD emptySummary) r)
      else lookupDay m e := by
  induction m with
  | nil =>
      simp only [updateDay, lookupDay]
      by_cases h : e = d
      · simp [h]
      · simp [h, Ne.symm h]
  | cons hd tl ih =>
      obtain ⟨d1, s⟩ := hd
      by_cases h1 : d1 = d
      · subst h1
        by_cases h2 : e = d1
        · subst h2
          simp [updateDay, lookupDay]
        · simp [updateDay, lookupDay, h2, Ne.symm h2]
      · simp only [updateDay, lookupDay, h1, if_neg h1]
        by_cases h2 : e = d1
        · subst h2
          simp [lookupDay, h1]
        · simp only [lookupDay, if_neg (fun hc : d1 = e => h2 hc.symm), ih]
          by_cases h3 : e = d
          · simp [h3]
          · simp [h3]

theorem lookupDay_foldRecs (recs : List Rec) (m : SummaryMap) (d : Nat) :
    lookupDay (foldRecs m recs) d = extendO (lookupDay m d) (dayRecords recs d) := by
  induction recs generalizing m with
  | nil => simp [foldRecs, dayRecords, extendO]
  | cons r rs ih =>
      have hstep : foldRecs m (r :: rs) = foldRecs (updateDay m (dayOf r.ts) r) rs := by
        simp [foldRecs]
      rw [hstep, ih]
      by_cases h : dayOf r.ts = d
      · have hd : dayRecords (r :: rs) d = r :: dayRecords rs d := by
          simp [dayRecords, List.filter_cons, h]
        rw [hd]
        have hl : lookupDay (updateDay m (dayOf r.ts) r) d =
            some (addRec ((lookupDay m d).getD emptySummary) r) := by
          rw [lookupDay_updateDay]
          simp [h]
        rw [hl]
        subst h
        simp [extendO]
      · have hd : dayRecords (r :: rs) d = dayRecords rs d := by
          simp [dayRecords, List.filter_cons, h]
        have hl : lookupDay (updateDay m (dayOf r.ts) r) d = lookupDay m d := by
          rw [lookupDay_updateDay]
          simp [Ne.symm h]
        rw [hd, hl]

theorem extendO_some (rs : List Rec) (s : DaySummary) :
    extendO (some s) rs =
      some ⟨s.count + rs.length, s.sum + sumVals rs,
            s.wsum + sumWeighted rs, s.sumtime + sumIntervals rs⟩ := by
  induction rs generalizing s with
  | nil => simp [extendO, sumVals, sumWeighted, sumIntervals]
  | cons r rs ih =>
      show extendO (some (addRec s r)) rs = _
      rw [ih]
      simp only [addRec, sumVals, sumWeighted, sumIntervals, List.foldr, List.length,
        Option.some.injEq, DaySummary.mk.injEq]
      exact ⟨by omega, by ring, by ring, by omega⟩

theorem extendO_none (r : Rec) (rs : List Rec) :
    extendO none (r :: rs) =
      some ⟨(r :: rs).length, sumVals (r :: rs),
            sumWeighted (r :: rs), sumIntervals (r :: rs)⟩ := by
  show extendO (some (addRec emptySummary r)) rs = _
  rw [extendO_some]
  simp only [addRec, emptySummary, sumVals, sumWeighted, sumIntervals,
    List.foldr, List.length, Option.some.injEq, DaySummary.mk.injEq]
  exact ⟨by omega, by ring, by ring, by omega⟩

/-- The central property of the backfill engine: for every day with at
least one record, the produced aggregate row counts and sums exactly the
records of that day. -/
theorem lookupDay_backfill (recs : List Rec) (d : Nat)
    (h : dayRecords recs d ≠ []) :
    lookupDay (backfill recs) d =
      some ⟨(dayRecords recs d).length, sumVals (dayRecords recs d),
            sumWeighted (dayRecords recs d), sumIntervals (dayRecords recs d)⟩ := by
  have hl := lookupDay_foldRecs recs [] d
  simp only [backfill]
  rw [hl]
  simp only [lookupDay]
  obtain ⟨r, rs, hr⟩ : ∃ r rs, dayRecords recs d = r :: rs := by
    cases hrec : dayRecords recs d with
    | nil => exact absurd hrec h
    | cons r rs => exact ⟨r, rs, rfl⟩
  rw [hr, extendO_none, ← hr]

/-! ## Dry runs are read-only -/

/-- The only write a trace may contain is the creation of the named
database; every other event must be read-only. -/
def createOnly (dest : String) (e : Ev) : Bool :=
  match e with
  | .createDb d => d == dest
  | e => !e.isWrite

theorem catchDest_createOnly (e : Exc) (d dn : String) :
    (catchDest e d).all (createOnly dn) = true := by
  cases e <;> simp [catchDest, createOnly, Ev.isWrite]

theorem catchDest_writeFree (e : Exc) (d : String) :
    writeFree (catchDest e d) = true := by
  cases e <;> simp [catchDest, writeFree, Ev.isWrite]

theorem create_database_dry_run (env : CreateEnv) :
    writeFree (create_database env true).1 = true := by
  rcases env with ⟨n, ex⟩
  cases ex <;> simp [create_database, writeFree, Ev.isWrite]

theorem drop_daily_dry_run (env : DropDailyEnv) :
    writeFree (drop_daily env true).1 = true := by
  rcases env with ⟨n, o, dr, a⟩
  cases o <;> cases dr <;> cases a <;>
    simp [drop_daily, prepare, writeFree, Ev.isWrite]

theorem rebuild_daily_dry_run (env : RebuildEnv) :
    writeFree (rebuild_daily env true).1 = true := by
  rcases env with ⟨n, d1, d2, d3, recs, a⟩
  cases a <;> simp [rebuild_daily, prepare, writeFree, Ev.isWrite]

theorem add_column_dry_run (env : AddColEnv) :
    writeFree (add_column env true) = true := by
  rcases env with ⟨n, c, t, a⟩
  cases a <;> simp [add_column, prepare, writeFree, Ev.isWrite]

theorem rename_column_dry_run (env : RenameEnv) :
    writeFree (rename_column env true) = true := by
  rcases env with ⟨n, c, t, a⟩
  cases a <;> simp [rename_column, prepare, writeFree, Ev.isWrite]

theorem drop_columns_dry_run (env : DropColsEnv) :
    writeFree (drop_columns env true).1 = true ∧
    (drop_columns env true).2 = env.schema := by
  rcases env with ⟨n, cols, sch, a⟩
  cases a <;> simp [drop_columns, prepare, writeFree, Ev.isWrite]

theorem reconfigure_database_dry_run (env : ReconfigEnv) :
    writeFree (reconfigure_database env true).1 = true := by
  rcases env with ⟨n, te, a1, a2, ou, tu⟩
  cases ou <;> cases a2 <;>
    simp [reconfigure_database, prepare, writeFree, Ev.isWrite]

theorem reweight_daily_dry_run (env : ReweightEnv) :
    writeFree (reweight_daily env true) = true := by
  rcases env with ⟨n, d1, d2, d3, a⟩
  cases a <;> simp [reweight_daily, prepare, writeFree, Ev.isWrite]

theorem transfer_database_dry_run (env : TransferEnv) :
    (transfer_database env true).1.all (createOnly env.destName) = true := by
  rcases env with ⟨db, br, sn, dn, nr, de, oe, ae, a⟩
  cases db <;> cases br <;> cases a <;> cases de <;> cases oe <;>
    by_cases hnr : nr = 0 <;>
    simp [transfer_database, createOnly, Ev.isWrite, hnr, catchDest_createOnly]

/-- C1 (amended): invoked with dry_run=True, the handlers create_database,
drop_daily, rebuild_daily, add_column, rename_column, drop_columns,
reconfigure_database and reweight_daily perform only read-only computation
and leave every database unchanged (their traces contain no mutating
event, and drop_columns leaves the schema exactly as it was); a dry-run
transfer_database performs no record transfer and no other mutation, but
it still opens the destination with open_with_create after the
confirmation, so its trace may contain the creation of the destination
database. -/
theorem dry_run_handlers_read_only :
    (∀ env : CreateEnv, writeFree (create_database env true).1 = true) ∧
    (∀ env : DropDailyEnv, writeFree (drop_daily env true).1 = true) ∧
    (∀ env : RebuildEnv, writeFree (rebuild_daily env true).1 = true) ∧
    (∀ env : AddColEnv, writeFree (add_column env true) = true) ∧
    (∀ env : RenameEnv, writeFree (rename_column env true) = true) ∧
    (∀ env : DropColsEnv, writeFree (drop_columns env true).1 = true ∧
        (drop_columns env true).2 = env.schema) ∧
    (∀ env : ReconfigEnv, writeFree (reconfigure_database env true).1 = true) ∧
    (∀ env : ReweightEnv, writeFree (reweight_daily env true) = true) ∧
    (∀ env : TransferEnv,
        (transfer_database env true).1.all (createOnly env.destName) = true) :=
  ⟨create_database_dry_run, drop_daily_dry_run, rebuild_daily_dry_run,
   add_column_dry_run, rename_column_dry_run, drop_columns_dry_run,
   reconfigure_database_dry_run, reweight_daily_dry_run, transfer_database_dry_run⟩

/-- C1 (counterexample): a dry-run transfer_database against a missing
destination database, with records in the source and the user confirming,
creates the destination database: its trace contains a mutating create
event, so the run does not leave all databases byte-for-byte unchanged. -/
theorem transfer_dry_run_creates_destination :
    Ev.createDb "weewx_dest.sdb" ∈
      (transfer_database
        ⟨some "dest_binding", .ok, "weewx.sdb", "weewx_dest.sdb",
         5, false, none, none, .y⟩ true).1 ∧
    Ev.isWrite (Ev.createDb "weewx_dest.sdb") = true ∧
    writeFree
      (transfer_database
        ⟨some "dest_binding", .ok, "weewx.sdb", "weewx_dest.sdb",
         5, false, none, none, .y⟩ true).1 = false := by
  refine ⟨?_, rfl, rfl⟩
  simp [transfer_database]

/-! ## Declining a confirmation prompt -/

theorem drop_daily_decline (env : DropDailyEnv) (d : Bool) :
    writeFree (drop_daily {env with ans := .n} d).1 = true ∧
    hasNothingDone (drop_daily {env with ans := .n} d).1 = true := by
  rcases env with ⟨n, o, dr, a⟩
  cases d <;> simp [drop_daily, prepare, writeFree, Ev.isWrite, hasNothingDone]

theorem rebuild_daily_decline (env : RebuildEnv) (d : Bool) :
    writeFree (rebuild_daily {env with ans := .n} d).1 = true ∧
    hasNothingDone (rebuild_daily {env with ans := .n} d).1 = true := by
  rcases env with ⟨n, d1, d2, d3, recs, a⟩
  cases d <;> simp [rebuild_daily, prepare, writeFree, Ev.isWrite, hasNothingDone]

theorem add_column_decline (env : AddColEnv) (d : Bool) :
    writeFree (add_column {env with ans := .n} d) = true ∧
    hasNothingDone (add_column {env with ans := .n} d) = true := by
  rcases env with ⟨n, c, t, a⟩
  cases d <;> simp [add_column, prepare, writeFree, Ev.isWrite, hasNothingDone]

theorem rename_column_decline (env : RenameEnv) (d : Bool) :
    writeFree (rename_column {env with ans := .n} d) = true ∧
    hasNothingDone (rename_column {env with ans := .n} d) = true := by
  rcases env with ⟨n, c, t, a⟩
  cases d <;> simp [rename_column, prepare, writeFree, Ev.isWrite, hasNothingDone]

theorem drop_columns_decline (env : DropColsEnv) (d : Bool) :
    writeFree (drop_columns {env with ans := .n} d).1 = true ∧
    hasNothingDone (drop_columns {env with ans := .n} d).1 = true ∧
    (drop_columns {env with ans := .n} d).2 = env.schema := by
  rcases env with ⟨n, cols, sch, a⟩
  cases d <;> simp [drop_columns, prepare, writeFree, Ev.isWrite, hasNothingDone]

theorem transfer_database_decline (env : TransferEnv) (d : Bool) :
    writeFree (transfer_database {env with ans := .n} d).1 = true ∧
    (!hasPrompt (transfer_database {env with ans := .n} d).1 ||
      hasNothingDone (transfer_database {env with ans := .n} d).1) = true := by
  rcases env with ⟨db, br, sn, dn, nr, de, oe, ae, a⟩
  cases db <;> cases br <;> cases d <;> by_cases hnr : nr = 0 <;>
    simp [transfer_database, writeFree, Ev.isWrite, Ev.isPrompt,
      hasPrompt, hasNothingDone, hnr]

theorem calc_missing_decline (env : CalcEnv) (d : Bool) :
    writeFree (calc_missing {env with ans := .n} d).1 = true ∧
    (!hasPrompt (calc_missing {env with ans := .n} d).1 ||
      hasNothingDone (calc_missing {env with ans := .n} d).1) = true := by
  rcases env with ⟨n, dt, fd, td, f1, l1, a, ub⟩
  cases dt <;> cases fd <;> cases f1 <;> cases d <;>
    simp [calc_missing, parse_dates, prepare, writeFree, Ev.isWrite,
      Ev.isPrompt, hasPrompt, hasNothingDone]

theorem reweight_daily_decline (env : ReweightEnv) (d : Bool) :
    writeFree (reweight_daily {env with ans := .n} d) = true ∧
    hasNothingDone (reweight_daily {env with ans := .n} d) = true := by
  rcases env with ⟨n, d1, d2, d3, a⟩
  cases d <;> simp [reweight_daily, prepare, writeFree, Ev.isWrite, hasNothingDone]

theorem reconfigure_database_decline (env : ReconfigEnv) (d : Bool) :
    (!hasPrompt (reconfigure_database
        {env with ansDelete := .n, ansProceed := .n} d).1 ||
      hasNothingDone (reconfigure_database
        {env with ansDelete := .n, ansProceed := .n} d).1) = true ∧
    (reconfigure_database {env with ansDelete := .n, ansProceed := .n} d).1.all
      (createOnly (env.srcName ++ "_new")) = true := by
  rcases env with ⟨n, te, a1, a2, ou, tu⟩
  cases d <;> cases te <;> cases ou <;>
    simp [reconfigure_database, prepare, createOnly, Ev.isWrite, Ev.isPrompt,
      hasPrompt, hasNothingDone] <;>
  cases tu <;> simp [hasNothingDone] <;>
  split <;> simp [hasNothingDone]

/-- C7 (amended): when the user declines the y/n confirmation, drop_daily,
rebuild_daily, add_column, rename_column, drop_columns, transfer_database,
calc_missing and reweight_daily print Nothing done. and make no mutating
call, leaving every database unchanged (for transfer_database and
calc_missing the message is guaranteed whenever the run reached the
prompt).  reconfigure_database also prints Nothing done. whenever a prompt
was reached and makes no further mutating call after a declined prompt,
but the target database may already have been created by the weedb.create
call that runs before any prompt, so its databases are not always left
unchanged. -/
theorem decline_prints_nothing_done :
    (∀ (env : DropDailyEnv) (d : Bool),
      writeFree (drop_daily {env with ans := .n} d).1 = true ∧
      hasNothingDone (drop_daily {env with ans := .n} d).1 = true) ∧
    (∀ (env : RebuildEnv) (d : Bool),
      writeFree (rebuild_daily {env with ans := .n} d).1 = true ∧
      hasNothingDone (rebuild_daily {env with ans := .n} d).1 = true) ∧
    (∀ (env : AddColEnv) (d : Bool),
      writeFree (add_column {env with ans := .n} d) = true ∧
      hasNothingDone (add_column {env with ans := .n} d) = true) ∧
    (∀ (env : RenameEnv) (d : Bool),
      writeFree (rename_column {env with ans := .n} d) = true ∧
      hasNothingDone (rename_column {env with ans := .n} d) = true) ∧
    (∀ (env : DropColsEnv) (d : Bool),
      writeFree (drop_columns {env with ans := .n} d).1 = true ∧
      hasNothingDone (drop_columns {env with ans := .n} d).1 = true ∧
      (drop_columns {env with ans := .n} d).2 = env.schema) ∧
    (∀ (env : TransferEnv) (d : Bool),
      writeFree (transfer_database {env with ans := .n} d).1 = true ∧
      (!hasPrompt (transfer_database {env with ans := .n} d).1 ||
        hasNothingDone (transfer_database {env with ans := .n} d).1) = true) ∧
    (∀ (env : CalcEnv) (d : Bool),
      writeFree (calc_missing {env with ans := .n} d).1 = true ∧
      (!hasPrompt (calc_missing {env with ans := .n} d).1 ||
        hasNothingDone (calc_missing {env with ans := .n} d).1) = true) ∧
    (∀ (env : ReweightEnv) (d : Bool),
      writeFree (reweight_daily {env with ans := .n} d) = true ∧
      hasNothingDone (reweight_daily {env with ans := .n} d) = true) ∧
    (∀ (env : ReconfigEnv) (d : Bool),
      (!hasPrompt (reconfigure_database
          {env with ansDelete := .n, ansProceed := .n} d).1 ||
        hasNothingDone (reconfigure_database
          {env with ansDelete := .n, ansProceed := .n} d).1) = true ∧
      (reconfigure_database {env with ansDelete := .n, ansProceed := .n} d).1.all
        (createOnly (env.srcName ++ "_new")) = true) :=
  ⟨drop_daily_decline, rebuild_daily_decline, add_column_decline,
   rename_column_decline, drop_columns_decline, transfer_database_decline,
   calc_missing_decline, reweight_daily_decline, reconfigure_database_decline⟩

/-- C7 (counterexample): a real (non-dry) reconfigure_database run against
a missing target database, with the user declining the proceed prompt,
prints Nothing done. yet its trace contains the creation of the target
database weewx.sdb_new, performed by weedb.create before the prompt: the
databases are not left unchanged. -/
theorem reconfigure_decline_after_create :
    hasNothingDone (reconfigure_database
      ⟨"weewx.sdb", false, .n, .n, some 1, none⟩ false).1 = true ∧
    Ev.createDb "weewx.sdb_new" ∈
      (reconfigure_database ⟨"weewx.sdb", false, .n, .n, some 1, none⟩ false).1 ∧
    writeFree (reconfigure_database
      ⟨"weewx.sdb", false, .n, .n, some 1, none⟩ false).1 = false := by
  refine ⟨rfl, ?_, rfl⟩
  simp [reconfigure_database, prepare]

/-! ## The version check of `check` -/

/-- C2 (amended): check reports Interval Weighting Fix is not required
exactly when the stored daily-summary version is present and is at least
2.0 in the Python string order (lexicographic comparison on code points,
the comparison the source performs); otherwise it recommends running the
update.  For version strings with a single-digit major component this
coincides with numeric version comparison, but not in general. -/
theorem check_weighting_fix_iff_string_ge (env : CheckEnv) :
    Ev.print Msg.fixNotRequired ∈ check env ↔
      ∃ v, env.version = some v ∧ pyStrGe v "2.0" = true := by
  rcases env with ⟨n, ver⟩
  cases ver with
  | none => simp [check, prepare]
  | some v =>
      by_cases h : pyStrGe v "2.0" <;> simp [check, prepare, h]

/-- C2 (counterexample): the stored version 10.0 is at least version 2.0
when compared as a version, yet check does not report the fix as not
required: it recommends running the update, because the source compares
version strings lexicographically and "10.0" is below "2.0" in that
order. -/
theorem check_version_string_compare_counterexample :
    versionGe "10.0" "2.0" = true ∧
    Ev.print Msg.fixNotRequired ∉ check ⟨"weewx.sdb", some "10.0"⟩ ∧
    Ev.print Msg.recommendUpdate ∈ check ⟨"weewx.sdb", some "10.0"⟩ := by
  refine ⟨rfl, ?_, ?_⟩ <;>
    simp [check, prepare, show pyStrGe "10.0" "2.0" = false from rfl]

/-! ## Dropping columns is all-or-nothing -/

/-- C3: when the requested column names contain at least one name missing
from the schema, a confirmed real drop_columns run reports the
NoColumnError naming the first missing column on stderr, prints Nothing
done., performs no mutating database operation, and leaves the schema
unchanged. -/
theorem drop_columns_missing_all_or_nothing (env : DropColsEnv) (c : String)
    (hy : env.ans = .y)
    (hc : env.columnNames.find? (fun x => !(env.schema.contains x)) = some c) :
    (drop_columns env false).2 = env.schema ∧
    writeFree (drop_columns env false).1 = true ∧
    Ev.printErr (.noColumnErr c) ∈ (drop_columns env false).1 ∧
    Ev.print .nothingDone ∈ (drop_columns env false).1 := by
  rcases env with ⟨n, cols, sch, a⟩
  simp only at hy hc
  subst hy
  simp only [drop_columns, prepare, manager_drop_columns]
  rw [hc]
  simp [writeFree, Ev.isWrite]

/-- Witness for C3: dropping columns a and b from the schema a, c trips on
the missing column b, leaves the schema a, c unchanged, and reports b. -/
theorem drop_columns_missing_all_or_nothing_witness :
    (drop_columns ⟨"weewx.sdb", ["a", "b"], ["a", "c"], .y⟩ false).2 = ["a", "c"] ∧
    Ev.printErr (.noColumnErr "b") ∈
      (drop_columns ⟨"weewx.sdb", ["a", "b"], ["a", "c"], .y⟩ false).1 ∧
    Ev.print .nothingDone ∈
      (drop_columns ⟨"weewx.sdb", ["a", "b"], ["a", "c"], .y⟩ false).1 :=
  have h := drop_columns_missing_all_or_nothing
    ⟨"weewx.sdb", ["a", "b"], ["a", "c"], .y⟩ "b" rfl (by decide)
  ⟨h.1, h.2.2.1, h.2.2.2⟩

/-! ## Rebuilding the daily summaries -/

theorem filter_recInRange_none (recs : List Rec) :
    recs.filter (recInRange none none) = recs := by
  induction recs with
  | nil => rfl
  | cons r rs ih => simp [List.filter_cons, recInRange, Option.all, ih]

/-- C4: after a confirmed real rebuild_daily with no date bounds, the
handler backfills the daily summaries over all history, and for every
calendar day with at least one archive record the resulting summary row
has count equal to the number of records of that day, with sum, weighted
sum and total weight aggregating exactly those records. -/
theorem rebuild_daily_backfill_day_counts (env : RebuildEnv) (d : Nat)
    (hy : env.ans = .y) (h1 : env.date = none) (h2 : env.from_date = none)
    (h3 : env.to_date = none) (hd : dayRecords env.recs d ≠ []) :
    (rebuild_daily env false).2 = some (backfill env.recs) ∧
    Ev.backfillDaily env.dbName ∈ (rebuild_daily env false).1 ∧
    lookupDay (backfill env.recs) d =
      some ⟨(dayRecords env.recs d).length, sumVals (dayRecords env.recs d),
            sumWeighted (dayRecords env.recs d),
            sumIntervals (dayRecords env.recs d)⟩ := by
  rcases env with ⟨n, dt, fd, td, recs, a⟩
  simp only at hy h1 h2 h3 hd
  subst hy h1 h2 h3
  refine ⟨?_, ?_, lookupDay_backfill recs d hd⟩
  · simp [rebuild_daily, parse_dates, prepare, filter_recInRange_none]
  · simp [rebuild_daily, parse_dates, prepare, filter_recInRange_none]

/-- Witness for C4: two records on day zero are counted and summed by the
rebuilt daily summary of day zero. -/
theorem rebuild_daily_backfill_day_counts_witness :
    (rebuild_daily ⟨"weewx.sdb", none, none, none,
        [⟨100, 3, 5⟩, ⟨200, 4, 5⟩], .y⟩ false).2 =
      some (backfill [⟨100, 3, 5⟩, ⟨200, 4, 5⟩]) ∧
    lookupDay (backfill [⟨100, 3, 5⟩, ⟨200, 4, 5⟩]) 0 =
      some ⟨(dayRecords [⟨100, 3, 5⟩, ⟨200, 4, 5⟩] 0).length,
            sumVals (dayRecords [⟨100, 3, 5⟩, ⟨200, 4, 5⟩] 0),
            sumWeighted (dayRecords [⟨100, 3, 5⟩, ⟨200, 4, 5⟩] 0),
            sumIntervals (dayRecords [⟨100, 3, 5⟩, ⟨200, 4, 5⟩] 0)⟩ :=
  have h := rebuild_daily_backfill_day_counts
    ⟨"weewx.sdb", none, none, none, [⟨100, 3, 5⟩, ⟨200, 4, 5⟩], .y⟩ 0
    rfl rfl rfl rfl (by decide)
  ⟨h.1, h.2.2⟩

/-! ## Transferring between databases: failures and guards -/

/-- C5: when opening the destination database inside transfer_database
raises an ImportError (driver import failure), OSError, or
OperationalError, the handler prints the abort messages to stderr,
re-raises the exception to the caller, and its whole trace is write-free,
so the source database is left untouched. -/
theorem transfer_database_dest_failure_propagates (env : TransferEnv)
    (b : String) (e : Exc) (d : Bool)
    (h1 : env.destBinding = some b) (h2 : env.bindingRes = .ok)
    (h3 : env.numRecs ≠ 0) (h4 : env.ans = .y) (h5 : env.openExc = some e)
    (he : e = .importError ∨ e = .osError ∨ e = .operationalError) :
    (transfer_database env d).2 = .raised e ∧
    Ev.printErr (.errAccessDest env.destName) ∈ (transfer_database env d).1 ∧
    Ev.printErr .nothingDoneAborting ∈ (transfer_database env d).1 ∧
    writeFree (transfer_database env d).1 = true := by
  rcases env with ⟨db, br, sn, dn, nr, de, oe, ae, a⟩
  simp only at h1 h2 h3 h4 h5
  subst h1 h2 h4 h5
  rcases he with rfl | rfl | rfl <;> cases d <;>
    simp [transfer_database, catchDest, writeFree, Ev.isWrite, h3]

/-- Witness for C5: an OperationalError while opening the destination of a
five-record transfer propagates and the run stays write-free. -/
theorem transfer_database_dest_failure_witness :
    (transfer_database ⟨some "dest_binding", .ok, "weewx.sdb", "dest.sdb",
        5, true, some .operationalError, none, .y⟩ false).2 =
      .raised .operationalError ∧
    writeFree (transfer_database ⟨some "dest_binding", .ok, "weewx.sdb",
        "dest.sdb", 5, true, some .operationalError, none, .y⟩ false).1 = true :=
  have h := transfer_database_dest_failure_propagates
    ⟨some "dest_binding", .ok, "weewx.sdb", "dest.sdb",
     5, true, some .operationalError, none, .y⟩
    "dest_binding" .operationalError false rfl rfl (by decide) rfl rfl
    (Or.inr (Or.inr rfl))
  ⟨h.1, h.2.2.2⟩

/-- C6: when the target database of a real reconfigure_database run
already exists (weedb.create raises DatabaseExists), the user decides the
outcome: answering n prints Nothing done. and returns before the old
database is even opened, with a write-free trace; answering y drops the
existing target database and the handler proceeds to open the old
database and continue the copy. -/
theorem reconfigure_database_exists_user_choice (env env2 : ReconfigEnv)
    (h1 : env.targetExists = true) (h2 : env.ansDelete = .n)
    (h3 : env2.targetExists = true) (h4 : env2.ansDelete = .y) :
    (hasNothingDone (reconfigure_database env false).1 = true ∧
     writeFree (reconfigure_database env false).1 = true ∧
     Ev.openDb env.srcName ∉ (reconfigure_database env false).1) ∧
    (Ev.dropDb (env2.srcName ++ "_new") ∈ (reconfigure_database env2 false).1 ∧
     Ev.openDb env2.srcName ∈ (reconfigure_database env2 false).1) := by
  rcases env with ⟨n, te, a1, a2, ou, tu⟩
  rcases env2 with ⟨n2, te2, b1, b2, ou2, tu2⟩
  simp only at h1 h2 h3 h4
  subst h1 h2 h3 h4
  constructor
  · simp [reconfigure_database, prepare, writeFree, Ev.isWrite, hasNothingDone]
  · cases ou2 <;> cases b2 <;>
      simp [reconfigure_database, prepare]

/-- Witness for C6: with an existing target, answering n leaves a
write-free trace, and answering y drops the target and opens the old
database. -/
theorem reconfigure_database_exists_user_choice_witness :
    writeFree (reconfigure_database
      ⟨"weewx.sdb", true, .n, .y, some 1, none⟩ false).1 = true ∧
    Ev.dropDb "weewx.sdb_new" ∈ (reconfigure_database
      ⟨"weewx.sdb", true, .y, .y, some 1, none⟩ false).1 ∧
    Ev.openDb "weewx.sdb" ∈ (reconfigure_database
      ⟨"weewx.sdb", true, .y, .y, some 1, none⟩ false).1 :=
  have h := reconfigure_database_exists_user_choice
    ⟨"weewx.sdb", true, .n, .y, some 1, none⟩
    ⟨"weewx.sdb", true, .y, .y, some 1, none⟩ rfl rfl rfl rfl
  ⟨h.1.2.1, h.2.1, h.2.2⟩

/-- C8: inside a real transfer_database run that reaches the record
transfer, the handler first disables logging at or below INFO; when the
transfer raises, the suppression is never lifted — the run ends with the
exception propagated and the global disable level still at INFO — whereas
on success the level is restored to NOTSET. -/
theorem transfer_database_logging_suppression (env env2 : TransferEnv)
    (b b2 : String) (e : Exc)
    (h1 : env.destBinding = some b) (h2 : env.bindingRes = .ok)
    (h3 : env.numRecs ≠ 0) (h4 : env.ans = .y) (h5 : env.openExc = none)
    (h6 : env.addExc = some e)
    (g1 : env2.destBinding = some b2) (g2 : env2.bindingRes = .ok)
    (g3 : env2.numRecs ≠ 0) (g4 : env2.ans = .y) (g5 : env2.openExc = none)
    (g6 : env2.addExc = none) :
    ((transfer_database env false).2 = .raised e ∧
     finalDisableLevel (transfer_database env false).1 = INFO_LEVEL) ∧
    (finalDisableLevel (transfer_database env2 false).1 = NOTSET_LEVEL ∧
     (transfer_database env2 false).2 = .ok) := by
  rcases env with ⟨db, br, sn, dn, nr, de, oe, ae, a⟩
  rcases env2 with ⟨db2, br2, sn2, dn2, nr2, de2, oe2, ae2, a2⟩
  simp only at h1 h2 h3 h4 h5 h6 g1 g2 g3 g4 g5 g6
  subst h1 h2 h4 h5 h6 g1 g2 g4 g5 g6
  constructor
  · cases e <;> cases de <;>
      simp [transfer_database, catchDest, finalDisableLevel, h3,
        INFO_LEVEL, NOTSET_LEVEL]
  · cases de2 <;>
      simp [transfer_database, finalDisableLevel, g3, INFO_LEVEL, NOTSET_LEVEL]

/-- Witness for C8: an OSError from the record transfer leaves the global
logging disable level at INFO with the exception propagated; the same
transfer without the error ends at NOTSET. -/
theorem transfer_database_logging_suppression_witness :
    finalDisableLevel (transfer_database ⟨some "b", .ok, "s.sdb", "d.sdb",
        5, true, none, some .osError, .y⟩ false).1 = INFO_LEVEL ∧
    finalDisableLevel (transfer_database ⟨some "b", .ok, "s.sdb", "d.sdb",
        5, true, none, none, .y⟩ false).1 = NOTSET_LEVEL :=
  have h := transfer_database_logging_suppression
    ⟨some "b", .ok, "s.sdb", "d.sdb", 5, true, none, some .osError, .y⟩
    ⟨some "b", .ok, "s.sdb", "d.sdb", 5, true, none, none, .y⟩
    "b" "b" .osError rfl rfl (by decide) rfl rfl rfl rfl rfl (by decide)
    rfl rfl rfl
  ⟨h.1.2, h.2.1⟩

/-! ## calc_missing on an empty archive -/

/-- C9: a calc_missing call without a start date and without a single-date
argument, against an archive whose first good timestamp is None, raises an
unhandled TypeError while computing the start timestamp as first_ts - 1,
before the user is prompted and before any database mutation. -/
theorem calc_missing_empty_archive_type_error (env : CalcEnv) (d : Bool)
    (h1 : env.date = none) (h2 : env.from_date = none)
    (h3 : env.firstTs = none) :
    (calc_missing env d).2 = .raised .typeError ∧
    promptFree (calc_missing env d).1 = true ∧
    writeFree (calc_missing env d).1 = true := by
  rcases env with ⟨n, dt, fd, td, f1, l1, a, ub⟩
  simp only at h1 h2 h3
  subst h1 h2 h3
  cases d <;>
    simp [calc_missing, parse_dates, prepare, promptFree, writeFree,
      Ev.isWrite, Ev.isPrompt]

/-- Witness for C9: the empty archive raises the TypeError with no prompt
and no write in the trace. -/
theorem calc_missing_empty_archive_type_error_witness :
    (calc_missing ⟨"weewx.sdb", none, none, none, none, none, .y, false⟩
        false).2 = .raised .typeError ∧
    promptFree (calc_missing ⟨"weewx.sdb", none, none, none, none, none,
        .y, false⟩ false).1 = true :=
  have h := calc_missing_empty_archive_type_error
    ⟨"weewx.sdb", none, none, none, none, none, .y, false⟩ false rfl rfl rfl
  ⟨h.1, h.2.1⟩

/-- C10: when the source database holds zero records, transfer_database
prints that no records were found and aborts before prompting the user and
before opening or creating the destination database: the trace holds no
prompt, never touches the destination, and is write-free. -/
theorem transfer_database_no_source_records (env : TransferEnv)
    (b : String) (d : Bool)
    (h1 : env.destBinding = some b) (h2 : env.bindingRes = .ok)
    (h3 : env.numRecs = 0) (h4 : env.srcName ≠ env.destName) :
    Ev.print (.noRecordsFound env.srcName) ∈ (transfer_database env d).1 ∧
    Ev.print .nothingDoneAborting ∈ (transfer_database env d).1 ∧
    promptFree (transfer_database env d).1 = true ∧
    touchFree env.destName (transfer_database env d).1 = true ∧
    writeFree (transfer_database env d).1 = true := by
  rcases env with ⟨db, br, sn, dn, nr, de, oe, ae, a⟩
  simp only at h1 h2 h3 h4
  subst h1 h2 h3
  cases d <;>
    simp [transfer_database, promptFree, touchFree, writeFree, Ev.isWrite,
      Ev.isPrompt, Ev.touches, h4]

/-- Witness for C10: an empty source aborts the transfer without touching
the destination. -/
theorem transfer_database_no_source_records_witness :
    Ev.print (.noRecordsFound "weewx.sdb") ∈
      (transfer_database ⟨some "b", .ok, "weewx.sdb", "dest.sdb",
        0, false, none, none, .y⟩ false).1 ∧
    touchFree "dest.sdb" (transfer_database ⟨some "b", .ok, "weewx.sdb",
        "dest.sdb", 0, false, none, none, .y⟩ false).1 = true :=
  have h := transfer_database_no_source_records
    ⟨some "b", .ok, "weewx.sdb", "dest.sdb", 0, false, none, none, .y⟩
    "b" false rfl rfl rfl (by decide)
  ⟨h.1, h.2.2.2.1⟩
